import Mathlib

/-!
Shallow embedding of the `rs-str2bool` library.

The repository has two source files:
* `src/ascii_byte.rs`: a single-symbol matcher (`AsciiByteToBoolPair`)
  classifying one byte against a configured true/false byte pair, with
  ASCII case-folding helpers and a char-narrowing entry point.
* `src/ascii_bytes.rs`: a multi-symbol matcher (`AsciiBytesToBoolPair`)
  classifying a byte sequence against a configured pair of sequences.

Bytes (`u8`) are modelled as `Fin 256`; Rust `char` (a Unicode scalar
value) is modelled by Lean's `Char`, which has the same carrier.
`std::io::Error` is modelled by its observable content: the error kind
and the message string. Fallible conversions return `Except`.
-/

deriving instance DecidableEq for Except

namespace Str2Bool

/-- Model of `std::io::ErrorKind`, restricted to the single variant the
library constructs. -/
inductive ErrorKind where
  | invalidInput
deriving DecidableEq, Repr

/-- Model of `std::io::Error` as built by `io::Error::new(kind, msg)`:
the kind together with the message string. -/
structure IoError where
  kind : ErrorKind
  message : String
deriving DecidableEq, Repr

/-- Rust `u8`. -/
abbrev Byte := Fin 256

/-- Rust `u8::to_ascii_lowercase`: ASCII uppercase letters
(`b'A'..=b'Z'`, i.e. 65..90) map to the letter 32 above; every other
byte is unchanged. -/
def byteToAsciiLowercase (b : Byte) : Byte :=
  if h : 65 ≤ b.val ∧ b.val ≤ 90 then ⟨b.val + 32, by omega⟩ else b

/-- Rust `u8::to_ascii_uppercase`: ASCII lowercase letters
(`b'a'..=b'z'`, i.e. 97..122) map to the letter 32 below; every other
byte is unchanged. -/
def byteToAsciiUppercase (b : Byte) : Byte :=
  if h : 97 ≤ b.val ∧ b.val ≤ 122 then ⟨b.val - 32, by omega⟩ else b

/-- Rust `char::to_ascii_lowercase`: `'A'..='Z'` map down to
`'a'..='z'`; every other character, ASCII or not, is unchanged. -/
def charToAsciiLowercase (c : Char) : Char :=
  if 65 ≤ c.toNat ∧ c.toNat ≤ 90 then Char.ofNat (c.toNat + 32) else c

/-- `struct AsciiByteToBoolPair { true_value: u8, false_value: u8 }`
from `src/ascii_byte.rs`. -/
structure AsciiByteToBoolPair where
  true_value : Byte
  false_value : Byte
deriving DecidableEq, Repr

namespace AsciiByteToBoolPair

/-- `Default for AsciiByteToBoolPair`: `(b'1', b'0')`. -/
def default : AsciiByteToBoolPair := ⟨49, 48⟩

/-- `new_yn`: `(b'y', b'n')`. -/
def new_yn : AsciiByteToBoolPair := ⟨121, 110⟩

/-- `new_tf`: `(b't', b'f')`. -/
def new_tf : AsciiByteToBoolPair := ⟨116, 102⟩

/-- `new_ox`: `(b'o', b'x')`. -/
def new_ox : AsciiByteToBoolPair := ⟨111, 120⟩

/-- `new_custom(true_value, false_value)`. -/
def new_custom (true_value false_value : Byte) : AsciiByteToBoolPair :=
  ⟨true_value, false_value⟩

/-- `new_from_true_value(true_value)`: the presence pair
`(true_value, 0)`. -/
def new_from_true_value (true_value : Byte) : AsciiByteToBoolPair :=
  ⟨true_value, 0⟩

/-- `new_o`: presence pair for `b'o'`. -/
def new_o : AsciiByteToBoolPair := new_from_true_value 111

/-- `new_o_capital`: presence pair for `b'O'`. -/
def new_o_capital : AsciiByteToBoolPair := new_from_true_value 79

/-- `new_x`: presence pair for `b'x'`. -/
def new_x : AsciiByteToBoolPair := new_from_true_value 120

/-- `new_x_capital`: presence pair for `b'X'`. -/
def new_x_capital : AsciiByteToBoolPair := new_from_true_value 88

/-- `into_lower`: both fields mapped through `u8::to_ascii_lowercase`. -/
def into_lower (p : AsciiByteToBoolPair) : AsciiByteToBoolPair :=
  ⟨byteToAsciiLowercase p.true_value, byteToAsciiLowercase p.false_value⟩

/-- `into_upper`: both fields mapped through `u8::to_ascii_uppercase`. -/
def into_upper (p : AsciiByteToBoolPair) : AsciiByteToBoolPair :=
  ⟨byteToAsciiUppercase p.true_value, byteToAsciiUppercase p.false_value⟩

/-- `AsciiByteToBool::convert` as implemented for `AsciiByteToBoolPair`
(`src/ascii_byte.rs` lines 124-135). -/
def convert (p : AsciiByteToBoolPair) (input : Byte) : Except IoError Bool :=
  if input = p.true_value then .ok true
  else if input = p.false_value then .ok false
  else .error ⟨.invalidInput, "Invalid boolean representation"⟩

/-- Default trait method `convert_lower` (`src/ascii_byte.rs` lines
10-12): lowercase the input byte, then `convert`. -/
def convert_lower (p : AsciiByteToBoolPair) (input : Byte) : Except IoError Bool :=
  p.convert (byteToAsciiLowercase input)

/-- `AsciiByteToBool::invalid_char2error` as implemented for
`AsciiByteToBoolPair` (`src/ascii_byte.rs` lines 117-122): an
`InvalidInput` error with the character interpolated by `Display`. -/
def invalid_char2error (invalid_char : Char) : IoError :=
  ⟨.invalidInput, "Invalid boolean representation: " ++ invalid_char.toString⟩

/-- Default trait method `convert_ascii_char` (`src/ascii_byte.rs`
lines 16-21): `u8::try_from(char)` succeeds exactly when the code point
is at most 255; on failure the error comes from `invalid_char2error`,
on success the narrowed byte goes to `convert`. -/
def convert_ascii_char (p : AsciiByteToBoolPair) (input : Char) : Except IoError Bool :=
  if h : input.toNat < 256 then p.convert ⟨input.toNat, h⟩
  else .error (invalid_char2error input)

/-- Default trait method `convert_ascii_char_lower` (`src/ascii_byte.rs`
lines 23-25): `char::to_ascii_lowercase` on the input, then
`convert_ascii_char`. -/
def convert_ascii_char_lower (p : AsciiByteToBoolPair) (input : Char) : Except IoError Bool :=
  p.convert_ascii_char (charToAsciiLowercase input)

end AsciiByteToBoolPair

/-- `struct AsciiBytesToBoolPair` from `src/ascii_bytes.rs`; the
`&'static [u8]` fields are modelled as byte lists. -/
structure AsciiBytesToBoolPair where
  true_value : List Byte
  false_value : List Byte
deriving DecidableEq, Repr

namespace AsciiBytesToBoolPair

/-- `Default for AsciiBytesToBoolPair`: `(b"true", b"false")`. -/
def default : AsciiBytesToBoolPair :=
  ⟨[116, 114, 117, 101], [102, 97, 108, 115, 101]⟩

/-- `new_yes_no`: `(b"yes", b"no")`. -/
def new_yes_no : AsciiBytesToBoolPair := ⟨[121, 101, 115], [110, 111]⟩

/-- `new_y_n`: `(b"y", b"n")`. -/
def new_y_n : AsciiBytesToBoolPair := ⟨[121], [110]⟩

/-- `new_o_x`: `(b"o", b"x")`. -/
def new_o_x : AsciiBytesToBoolPair := ⟨[111], [120]⟩

/-- `new_t_f`: `(b"t", b"f")`. -/
def new_t_f : AsciiBytesToBoolPair := ⟨[116], [102]⟩

/-- `new_on_off`: `(b"on", b"off")`. -/
def new_on_off : AsciiBytesToBoolPair := ⟨[111, 110], [111, 102, 102]⟩

/-- `new_custom(true_value, false_value)`. -/
def new_custom (true_value false_value : List Byte) : AsciiBytesToBoolPair :=
  ⟨true_value, false_value⟩

/-- `new_from_true_value(tv)`: the presence pair `(tv, b"")`. -/
def new_from_true_value (tv : List Byte) : AsciiBytesToBoolPair := ⟨tv, []⟩

/-- `AsciiBytesToBool::convert` as implemented for
`AsciiBytesToBoolPair` (`src/ascii_bytes.rs` lines 125-136). -/
def convert (p : AsciiBytesToBoolPair) (input : List Byte) : Except IoError Bool :=
  if input = p.true_value then .ok true
  else if input = p.false_value then .ok false
  else .error ⟨.invalidInput, "Invalid boolean representation"⟩

end AsciiBytesToBoolPair

/-- A second definition following the spec's words for
`convert_ascii_char_lower` ("Unicode-aware case fold on the character,
not byte-level"): the Unicode simple lowercase mapping, restricted to
the Latin-1 range U+0000..U+00FF where it is fully tabulated here. Per
UnicodeData.txt, the cased capitals of that range are U+0041..U+005A,
U+00C0..U+00D6 and U+00D8..U+00DE, each lowering to the code point
0x20 above; every other code point of the range maps to itself. Code
points above U+00FF are left unchanged by this restriction. -/
def unicodeSimpleLowerLatin1 (c : Char) : Char :=
  if (65 ≤ c.toNat ∧ c.toNat ≤ 90) ∨
      (0xC0 ≤ c.toNat ∧ c.toNat ≤ 0xD6) ∨
      (0xD8 ≤ c.toNat ∧ c.toNat ≤ 0xDE) then
    Char.ofNat (c.toNat + 32)
  else c

/-! Helper lemmas about the ASCII byte folds, shared by several
theorems below. -/

set_option maxRecDepth 4096 in
theorem byteToAsciiLowercase_idem :
    ∀ b : Byte, byteToAsciiLowercase (byteToAsciiLowercase b) = byteToAsciiLowercase b := by
  decide

set_option maxRecDepth 4096 in
theorem byteToAsciiUppercase_idem :
    ∀ b : Byte, byteToAsciiUppercase (byteToAsciiUppercase b) = byteToAsciiUppercase b := by
  decide

set_option maxRecDepth 4096 in
theorem byteToAsciiLowercase_not_upper :
    ∀ b : Byte, ¬(65 ≤ (byteToAsciiLowercase b).val ∧ (byteToAsciiLowercase b).val ≤ 90) := by
  decide

namespace AsciiByteToBoolPair

/-- C1: `convert` returns `Ok(true)` when the input equals
`true_value`; otherwise `Ok(false)` when it equals `false_value`;
otherwise it fails with an `InvalidInput` error whose message is
exactly "Invalid boolean representation", with no offending value
embedded. -/
theorem convert_classifies (p : AsciiByteToBoolPair) (b : Byte) :
    (b = p.true_value → p.convert b = .ok true) ∧
    (b ≠ p.true_value → b = p.false_value → p.convert b = .ok false) ∧
    (b ≠ p.true_value → b ≠ p.false_value →
      p.convert b = .error ⟨.invalidInput, "Invalid boolean representation"⟩) := by
  refine ⟨fun h => ?_, fun h1 h2 => ?_, fun h1 h2 => ?_⟩ <;>
    simp_all [convert]

theorem convert_classifies_witness :
    AsciiByteToBoolPair.default.convert 49 = .ok true ∧
    AsciiByteToBoolPair.default.convert 48 = .ok false ∧
    AsciiByteToBoolPair.default.convert 50 =
      .error ⟨.invalidInput, "Invalid boolean representation"⟩ :=
  ⟨(convert_classifies AsciiByteToBoolPair.default 49).1 (by decide),
   (convert_classifies AsciiByteToBoolPair.default 48).2.1 (by decide) (by decide),
   (convert_classifies AsciiByteToBoolPair.default 50).2.2 (by decide) (by decide)⟩

/-- C4: a pair constructed with `true_value == false_value` is
permitted (construction is total, no error), and `convert` on the
shared byte always returns `Ok(true)`, never `Ok(false)`. -/
theorem degenerate_pair_always_true (v : Byte) :
    (new_custom v v).true_value = v ∧
    (new_custom v v).false_value = v ∧
    (new_custom v v).convert v = .ok true := by
  refine ⟨rfl, rfl, ?_⟩
  simp [new_custom, convert]

/-- C5: `convert_ascii_char` on a character whose code point exceeds
255 fails, regardless of the pair, with an `InvalidInput` error whose
message is "Invalid boolean representation: " followed by the
character in its display form; on a code point that fits in 8 bits it
returns exactly `convert` on the narrowed byte. -/
theorem convert_ascii_char_narrowing (p : AsciiByteToBoolPair) (c : Char) :
    (255 < c.toNat →
      p.convert_ascii_char c =
        .error ⟨.invalidInput, "Invalid boolean representation: " ++ c.toString⟩) ∧
    (∀ h : c.toNat < 256, p.convert_ascii_char c = p.convert ⟨c.toNat, h⟩) := by
  constructor
  · intro h
    rw [convert_ascii_char, dif_neg (by omega)]
    rfl
  · intro h
    rw [convert_ascii_char, dif_pos h]

theorem convert_ascii_char_narrowing_witness :
    AsciiByteToBoolPair.default.convert_ascii_char (Char.ofNat 256) =
      .error ⟨.invalidInput,
        "Invalid boolean representation: " ++ (Char.ofNat 256).toString⟩ ∧
    AsciiByteToBoolPair.default.convert_ascii_char (Char.ofNat 49) = .ok true := by
  constructor
  · exact (convert_ascii_char_narrowing AsciiByteToBoolPair.default (Char.ofNat 256)).1
      (by decide)
  · rw [(convert_ascii_char_narrowing AsciiByteToBoolPair.default (Char.ofNat 49)).2
      (by decide)]
    decide

/-- C6 counterexample: the claim asserts for every `t` that the
presence pair `new_from_true_value(t)` maps input 0 to `Ok(false)`;
at `t = 0` the sentinel coincides with the true value and `convert 0`
returns `Ok(true)`, not `Ok(false)`. -/
theorem new_from_true_value_zero_degenerate :
    (new_from_true_value 0).convert 0 = .ok true ∧
    (new_from_true_value 0).convert 0 ≠ .ok false := by
  decide

/-- C6 (amended): for every nonzero `t`, `new_from_true_value(t)`
builds the pair `(t, 0)`, `convert t = Ok(true)`, `convert 0 =
Ok(false)`, and `convert` on any other byte fails with `InvalidInput`;
matching is exactly case sensitive: `new_o_capital` accepts `b'O'` and
rejects `b'o'`. (At `t = 0` the pair degenerates and `convert 0`
returns `Ok(true)`.) -/
theorem new_from_true_value_presence (t : Byte) (ht : t ≠ 0) :
    (new_from_true_value t).true_value = t ∧
    (new_from_true_value t).false_value = 0 ∧
    (new_from_true_value t).convert t = .ok true ∧
    (new_from_true_value t).convert 0 = .ok false ∧
    (∀ b : Byte, b ≠ t → b ≠ 0 →
      (new_from_true_value t).convert b =
        .error ⟨.invalidInput, "Invalid boolean representation"⟩) ∧
    new_o_capital.convert 79 = .ok true ∧
    new_o_capital.convert 111 =
      .error ⟨.invalidInput, "Invalid boolean representation"⟩ := by
  refine ⟨rfl, rfl, ?_, ?_, ?_, by decide, by decide⟩
  · simp [new_from_true_value, convert]
  · simp [new_from_true_value, convert, Ne.symm ht]
  · intro b hb1 hb2
    simp [new_from_true_value, convert, hb1, hb2]

theorem new_from_true_value_presence_witness :
    (new_from_true_value 111).convert 111 = .ok true ∧
    (new_from_true_value 111).convert 0 = .ok false ∧
    (new_from_true_value 111).convert 120 =
      .error ⟨.invalidInput, "Invalid boolean representation"⟩ :=
  ⟨(new_from_true_value_presence 111 (by decide)).2.2.1,
   (new_from_true_value_presence 111 (by decide)).2.2.2.1,
   (new_from_true_value_presence 111 (by decide)).2.2.2.2.1 120 (by decide) (by decide)⟩

/-- C7: `into_lower` / `into_upper` are self-consistent — each field of
the transformed pair is the byte-level ASCII case fold of the original
field — and idempotent: applying the same transform twice equals
applying it once. -/
theorem into_lower_upper_consistent_idem (p : AsciiByteToBoolPair) :
    (p.into_lower).true_value = byteToAsciiLowercase p.true_value ∧
    (p.into_lower).false_value = byteToAsciiLowercase p.false_value ∧
    (p.into_upper).true_value = byteToAsciiUppercase p.true_value ∧
    (p.into_upper).false_value = byteToAsciiUppercase p.false_value ∧
    p.into_lower.into_lower = p.into_lower ∧
    p.into_upper.into_upper = p.into_upper := by
  refine ⟨rfl, rfl, rfl, rfl, ?_, ?_⟩ <;>
    simp [into_lower, into_upper, byteToAsciiLowercase_idem, byteToAsciiUppercase_idem]

/-- C8: `convert_lower` equals `convert` on the ASCII-lowercased input
byte; the fold changes a byte only when it is an ASCII uppercase
letter (a subset of the ASCII alphabetic bytes), moving it 32 up, and
every other byte passes through unchanged. -/
theorem convert_lower_folds_input (p : AsciiByteToBoolPair) (b : Byte) :
    p.convert_lower b = p.convert (byteToAsciiLowercase b) ∧
    (byteToAsciiLowercase b ≠ b → 65 ≤ b.val ∧ b.val ≤ 90) ∧
    (65 ≤ b.val ∧ b.val ≤ 90 → (byteToAsciiLowercase b).val = b.val + 32) := by
  refine ⟨rfl, fun h => ?_, fun h => ?_⟩
  · by_contra hn
    exact h (by rw [byteToAsciiLowercase, dif_neg hn])
  · rw [byteToAsciiLowercase, dif_pos h]

theorem convert_lower_folds_input_witness :
    AsciiByteToBoolPair.new_tf.convert_lower 84 =
      AsciiByteToBoolPair.new_tf.convert (byteToAsciiLowercase 84) ∧
    (65 ≤ (84 : Byte).val ∧ (84 : Byte).val ≤ 90) ∧
    (byteToAsciiLowercase 84).val = (84 : Byte).val + 32 :=
  ⟨(convert_lower_folds_input AsciiByteToBoolPair.new_tf 84).1,
   (convert_lower_folds_input AsciiByteToBoolPair.new_tf 84).2.1 (by decide),
   (convert_lower_folds_input AsciiByteToBoolPair.new_tf 84).2.2 (by decide)⟩

/-- C9: when the configured `true_value` is an ASCII uppercase letter
that differs from the ASCII-lowercase image of `false_value`,
`convert_lower` never returns `Ok(true)`: no byte ASCII-lowercases to
an uppercase letter, so the true token is unreachable. -/
theorem convert_lower_upper_token_unreachable (p : AsciiByteToBoolPair) (b : Byte)
    (h1 : 65 ≤ p.true_value.val) (h2 : p.true_value.val ≤ 90)
    (_h3 : p.true_value ≠ byteToAsciiLowercase p.false_value) :
    p.convert_lower b ≠ .ok true := by
  intro hc
  have hb : byteToAsciiLowercase b = p.true_value := by
    by_contra hne
    rw [convert_lower, convert, if_neg hne] at hc
    split at hc <;> simp_all
  have hup := byteToAsciiLowercase_not_upper b
  rw [hb] at hup
  exact hup ⟨h1, h2⟩

theorem convert_lower_upper_token_unreachable_witness :
    AsciiByteToBoolPair.new_o_capital.convert_lower 111 ≠ .ok true :=
  convert_lower_upper_token_unreachable AsciiByteToBoolPair.new_o_capital 111
    (by decide) (by decide) (by decide)

/-- C10: the narrowing in `convert_ascii_char` succeeds for every
character with code point at most 255, not only ASCII: the result is
exactly `convert` on the code point as a byte, so a pair whose
`true_value` is a non-ASCII byte classifies the corresponding Latin-1
character. -/
theorem convert_ascii_char_latin1 (p : AsciiByteToBoolPair) (c : Char)
    (h : c.toNat < 256) :
    p.convert_ascii_char c = p.convert ⟨c.toNat, h⟩ := by
  rw [convert_ascii_char, dif_pos h]

theorem convert_ascii_char_latin1_witness :
    (new_custom 255 0).convert_ascii_char (Char.ofNat 255) = .ok true := by
  rw [convert_ascii_char_latin1 (new_custom 255 0) (Char.ofNat 255) (by decide)]
  decide

/-- C3 counterexample: the claim says `convert_ascii_char_lower`
applies a Unicode-aware case fold to the character before delegating.
At the Latin-1 capital Þ (U+00DE), whose Unicode lowercase is þ
(U+00FE), the code leaves the character unchanged: with the pair
`(0xFE, 0xDC)` the Unicode-fold reading predicts `Ok(true)` while the
code returns an `InvalidInput` error. -/
theorem convert_ascii_char_lower_not_unicode :
    ¬(∀ (p : AsciiByteToBoolPair) (c : Char), c.toNat ≤ 255 →
        p.convert_ascii_char_lower c =
          p.convert_ascii_char (unicodeSimpleLowerLatin1 c)) := by
  intro h
  exact absurd (h (new_custom 254 220) (Char.ofNat 0xDE) (by decide)) (by decide)

/-- C3 (amended): `convert_ascii_char_lower` applies the ASCII case
fold at the character level — only `'A'..='Z'` are lowered by 32,
every other character (ASCII or not) is unchanged — and then returns
exactly the result of `convert_ascii_char` on the folded character. -/
theorem convert_ascii_char_lower_ascii_fold (p : AsciiByteToBoolPair) (c : Char) :
    p.convert_ascii_char_lower c =
      p.convert_ascii_char
        (if 65 ≤ c.toNat ∧ c.toNat ≤ 90 then Char.ofNat (c.toNat + 32) else c) :=
  rfl

end AsciiByteToBoolPair

namespace AsciiBytesToBoolPair

/-- C2: the sequence `convert` returns `Ok(true)` exactly when the
input equals `true_value` byte-for-byte, `Ok(false)` exactly when it
equals `false_value` and not `true_value`, and fails with the
`InvalidInput` / "Invalid boolean representation" error on every other
input; in particular any input whose length differs from both tokens
fails, including the empty sequence when both tokens are nonempty and
it is not the configured false value. -/
theorem convert_classifies_seq (p : AsciiBytesToBoolPair) (input : List Byte) :
    (p.convert input = .ok true ↔ input = p.true_value) ∧
    (p.convert input = .ok false ↔ (input ≠ p.true_value ∧ input = p.false_value)) ∧
    (input ≠ p.true_value → input ≠ p.false_value →
      p.convert input = .error ⟨.invalidInput, "Invalid boolean representation"⟩) ∧
    (input.length ≠ p.true_value.length → input.length ≠ p.false_value.length →
      p.convert input = .error ⟨.invalidInput, "Invalid boolean representation"⟩) ∧
    (input = [] → p.true_value ≠ [] → p.false_value ≠ [] →
      p.convert input = .error ⟨.invalidInput, "Invalid boolean representation"⟩) := by
  by_cases h1 : input = p.true_value <;> by_cases h2 : input = p.false_value <;>
    refine ⟨?_, ?_, ?_, ?_, ?_⟩ <;>
      simp_all [convert]

theorem convert_classifies_seq_witness :
    AsciiBytesToBoolPair.new_yes_no.convert [121, 101, 115] = .ok true ∧
    AsciiBytesToBoolPair.new_yes_no.convert [110, 111] = .ok false ∧
    AsciiBytesToBoolPair.new_yes_no.convert [109, 97, 121] =
      .error ⟨.invalidInput, "Invalid boolean representation"⟩ ∧
    AsciiBytesToBoolPair.new_t_f.convert [116, 116] =
      .error ⟨.invalidInput, "Invalid boolean representation"⟩ ∧
    AsciiBytesToBoolPair.default.convert [] =
      .error ⟨.invalidInput, "Invalid boolean representation"⟩ :=
  ⟨(convert_classifies_seq AsciiBytesToBoolPair.new_yes_no [121, 101, 115]).1.2 (by decide),
   (convert_classifies_seq AsciiBytesToBoolPair.new_yes_no [110, 111]).2.1.2
     ⟨by decide, by decide⟩,
   (convert_classifies_seq AsciiBytesToBoolPair.new_yes_no [109, 97, 121]).2.2.1
     (by decide) (by decide),
   (convert_classifies_seq AsciiBytesToBoolPair.new_t_f [116, 116]).2.2.2.1
     (by decide) (by decide),
   (convert_classifies_seq AsciiBytesToBoolPair.default []).2.2.2.2
     (by decide) (by decide) (by decide)⟩

end AsciiBytesToBoolPair

end Str2Bool
